import Mathlib

/-!
AWS IoT MQTT client interface: error codes, client states, logging helpers, reconnect bounds

A shallow embedding of the declarations of

* `aws_iot_mqtt_client_interface.h` (the enumerations `QoS_t`, `IoT_Error_t`,
  `IoT_Client_State_t`, the parameter structures and the operation prototypes),
* `aws_iot_log.h` (the macros `IOT_LOG_CONN_STATUS` and `IOT_MQTT_ERROR_STRING`),
* `aws_iot_config.h` (the reconnect wait bounds),

followed by the properties the interface specification states about them.

The enumerations `IoT_Error_t` and `IoT_Client_State_t` are inductive types of
their enumerators together with a `toInt` function giving each enumerator the
integer the header assigns to it.  `QoS_t`, the type of a structure field, is
the integer object a C enumeration type is, with its enumerators as constants.
`IOT_MQTT_ERROR_STRING` parenthesises its parameter and is a function of the
argument's integer value; `IOT_LOG_CONN_STATUS` does not, and is a function of
the argument expression.
-/

namespace AwsIot

/-! ## `aws_iot_mqtt_client_interface.h`: enumerations -/

/-- The enumeration type `QoS_t` (header lines 28-31).  An object of a C
enumeration type holds an integer (`toInt`); the enumerators are named
constants of the type, and nothing in the type keeps an object from holding
another integer. -/
structure QoS_t where
  toInt : Int
  deriving DecidableEq, Repr

/-- Enumerator `QOS0 = 0` (header line 29). -/
def QoS_t.QOS0 : QoS_t := ⟨0⟩

/-- Enumerator `QOS1 = 1` (header line 30). -/
def QoS_t.QOS1 : QoS_t := ⟨1⟩

/-- The enumerators `QoS_t` declares, each with its identifier, in declaration
order. -/
def QoS_t.enumerators : List (String × QoS_t) :=
  [("QOS0", QoS_t.QOS0), ("QOS1", QoS_t.QOS1)]

/-- Whether the object holds the value of one of the declared enumerators. -/
def QoS_t.isEnumerator (q : QoS_t) : Bool :=
  decide (q ∈ QoS_t.enumerators.map Prod.snd)

/-- Enumerators of `IoT_Error_t` (header lines 36-49), in declaration order. -/
inductive IoT_Error_t where
  | SUCCESS
  | FAILURE
  | NETWORK_TCP_SOCKET_ERROR
  | NETWORK_SSL_CONNECT_ERROR
  | NETWORK_TIMEOUT_ERROR
  | NETWORK_RECONNECTED
  | NETWORK_ATTEMPTING_RECONNECT
  | MQTT_REQUEST_TIMEOUT_ERROR
  | MQTT_CONNECTION_ERROR
  | MQTT_NOTHING_TO_READ
  | MQTT_UNEXPECTED_CLIENT_STATE
  | MQTT_INVALID_TLS_HANDSHAKE
  deriving DecidableEq, Repr

/-- Integer value of each `IoT_Error_t` enumerator. -/
def IoT_Error_t.toInt : IoT_Error_t → Int
  | .SUCCESS => 0
  | .FAILURE => -1
  | .NETWORK_TCP_SOCKET_ERROR => -2
  | .NETWORK_SSL_CONNECT_ERROR => -3
  | .NETWORK_TIMEOUT_ERROR => -4
  | .NETWORK_RECONNECTED => -5
  | .NETWORK_ATTEMPTING_RECONNECT => -6
  | .MQTT_REQUEST_TIMEOUT_ERROR => -7
  | .MQTT_CONNECTION_ERROR => -8
  | .MQTT_NOTHING_TO_READ => -9
  | .MQTT_UNEXPECTED_CLIENT_STATE => -10
  | .MQTT_INVALID_TLS_HANDSHAKE => -11

/-- Identifier of each `IoT_Error_t` enumerator as spelled in the header. -/
def IoT_Error_t.ident : IoT_Error_t → String
  | .SUCCESS => "SUCCESS"
  | .FAILURE => "FAILURE"
  | .NETWORK_TCP_SOCKET_ERROR => "NETWORK_TCP_SOCKET_ERROR"
  | .NETWORK_SSL_CONNECT_ERROR => "NETWORK_SSL_CONNECT_ERROR"
  | .NETWORK_TIMEOUT_ERROR => "NETWORK_TIMEOUT_ERROR"
  | .NETWORK_RECONNECTED => "NETWORK_RECONNECTED"
  | .NETWORK_ATTEMPTING_RECONNECT => "NETWORK_ATTEMPTING_RECONNECT"
  | .MQTT_REQUEST_TIMEOUT_ERROR => "MQTT_REQUEST_TIMEOUT_ERROR"
  | .MQTT_CONNECTION_ERROR => "MQTT_CONNECTION_ERROR"
  | .MQTT_NOTHING_TO_READ => "MQTT_NOTHING_TO_READ"
  | .MQTT_UNEXPECTED_CLIENT_STATE => "MQTT_UNEXPECTED_CLIENT_STATE"
  | .MQTT_INVALID_TLS_HANDSHAKE => "MQTT_INVALID_TLS_HANDSHAKE"

/-- Every enumerator of `IoT_Error_t`, in declaration order. -/
def IoT_Error_t.all : List IoT_Error_t :=
  [.SUCCESS, .FAILURE, .NETWORK_TCP_SOCKET_ERROR, .NETWORK_SSL_CONNECT_ERROR,
   .NETWORK_TIMEOUT_ERROR, .NETWORK_RECONNECTED, .NETWORK_ATTEMPTING_RECONNECT,
   .MQTT_REQUEST_TIMEOUT_ERROR, .MQTT_CONNECTION_ERROR, .MQTT_NOTHING_TO_READ,
   .MQTT_UNEXPECTED_CLIENT_STATE, .MQTT_INVALID_TLS_HANDSHAKE]

/-- Whether the enumerator's identifier starts with the characters `MQTT_`. -/
def IoT_Error_t.hasMqttPrefix (e : IoT_Error_t) : Bool :=
  decide (e.ident.toList.take 5 = ['M', 'Q', 'T', 'T', '_'])

/-- Whether the enumerator's identifier starts with the characters `NETWORK_`. -/
def IoT_Error_t.hasNetworkPrefix (e : IoT_Error_t) : Bool :=
  decide (e.ident.toList.take 8 = ['N', 'E', 'T', 'W', 'O', 'R', 'K', '_'])

/-- Enumerators of `IoT_Client_State_t` (header lines 54-64), in declaration order. -/
inductive IoT_Client_State_t where
  | CLIENT_STATE_INVALID
  | CLIENT_STATE_INITIALIZED
  | CLIENT_STATE_CONNECTING
  | CLIENT_STATE_CONNECTED
  | CLIENT_STATE_DISCONNECTED
  | CLIENT_STATE_DISCONNECTING
  | CLIENT_STATE_PUBLISHING
  | CLIENT_STATE_SUBSCRIBING
  | CLIENT_STATE_UNSUBSCRIBING
  deriving DecidableEq, Repr

/-- Integer value of each `IoT_Client_State_t` enumerator. -/
def IoT_Client_State_t.toInt : IoT_Client_State_t → Int
  | .CLIENT_STATE_INVALID => 0
  | .CLIENT_STATE_INITIALIZED => 1
  | .CLIENT_STATE_CONNECTING => 2
  | .CLIENT_STATE_CONNECTED => 3
  | .CLIENT_STATE_DISCONNECTED => 4
  | .CLIENT_STATE_DISCONNECTING => 5
  | .CLIENT_STATE_PUBLISHING => 6
  | .CLIENT_STATE_SUBSCRIBING => 7
  | .CLIENT_STATE_UNSUBSCRIBING => 8

/-- Every enumerator of `IoT_Client_State_t`, in declaration order. -/
def IoT_Client_State_t.all : List IoT_Client_State_t :=
  [.CLIENT_STATE_INVALID, .CLIENT_STATE_INITIALIZED, .CLIENT_STATE_CONNECTING,
   .CLIENT_STATE_CONNECTED, .CLIENT_STATE_DISCONNECTED, .CLIENT_STATE_DISCONNECTING,
   .CLIENT_STATE_PUBLISHING, .CLIENT_STATE_SUBSCRIBING, .CLIENT_STATE_UNSUBSCRIBING]

/-- Publish message parameters, `IoT_Publish_Message_Params` (header lines 75-80).
The pair `payload`/`payloadLen` of the C structure is kept as the byte buffer
and the declared length. -/
structure IoT_Publish_Message_Params where
  qos : QoS_t
  payload : List Nat
  payloadLen : Nat
  isRetained : Bool
  deriving DecidableEq, Repr

/-! ## `aws_iot_log.h`: helper macros -/

/-- `IOT_MQTT_ERROR_STRING(err)` (log header lines 79-92): the chain of
conditional expressions, on the integer value of `err`. -/
def IOT_MQTT_ERROR_STRING (err : Int) : String :=
  if err = IoT_Error_t.SUCCESS.toInt then "SUCCESS"
  else if err = IoT_Error_t.FAILURE.toInt then "FAILURE"
  else if err = IoT_Error_t.NETWORK_TCP_SOCKET_ERROR.toInt then "NETWORK_TCP_SOCKET_ERROR"
  else if err = IoT_Error_t.NETWORK_SSL_CONNECT_ERROR.toInt then "NETWORK_SSL_CONNECT_ERROR"
  else if err = IoT_Error_t.NETWORK_TIMEOUT_ERROR.toInt then "NETWORK_TIMEOUT_ERROR"
  else if err = IoT_Error_t.NETWORK_RECONNECTED.toInt then "NETWORK_RECONNECTED"
  else if err = IoT_Error_t.NETWORK_ATTEMPTING_RECONNECT.toInt then "NETWORK_ATTEMPTING_RECONNECT"
  else if err = IoT_Error_t.MQTT_REQUEST_TIMEOUT_ERROR.toInt then "MQTT_REQUEST_TIMEOUT_ERROR"
  else if err = IoT_Error_t.MQTT_CONNECTION_ERROR.toInt then "MQTT_CONNECTION_ERROR"
  else if err = IoT_Error_t.MQTT_NOTHING_TO_READ.toInt then "MQTT_NOTHING_TO_READ"
  else if err = IoT_Error_t.MQTT_UNEXPECTED_CLIENT_STATE.toInt then "MQTT_UNEXPECTED_CLIENT_STATE"
  else if err = IoT_Error_t.MQTT_INVALID_TLS_HANDSHAKE.toInt then "MQTT_INVALID_TLS_HANDSHAKE"
  else "UNKNOWN_ERROR"

/-- Log levels of the `ESP_LOGE` .. `ESP_LOGV` family that the `IOT_*` macros
of the log header expand to. -/
inductive LogLevel where
  | error
  | warn
  | info
  | debug
  | verbose
  deriving DecidableEq, Repr

/-- One emitted log message: its level, its tag and its formatted text. -/
structure LogRecord where
  level : LogLevel
  tag : String
  text : String
  deriving DecidableEq, Repr

/-- `AWS_IOT_LOG_TAG` (log header line 21). -/
def AWS_IOT_LOG_TAG : String := "aws_iot"

/-- `IOT_ERROR(...)` (log header line 28): an error-level message under the tag. -/
def IOT_ERROR (text : String) : LogRecord := ⟨LogLevel.error, AWS_IOT_LOG_TAG, text⟩

/-- `IOT_WARN(...)` (log header line 35): a warning-level message under the tag. -/
def IOT_WARN (text : String) : LogRecord := ⟨LogLevel.warn, AWS_IOT_LOG_TAG, text⟩

/-- `IOT_INFO(...)` (log header line 42): an info-level message under the tag. -/
def IOT_INFO (text : String) : LogRecord := ⟨LogLevel.info, AWS_IOT_LOG_TAG, text⟩

/-- Rendering of a `%d` conversion: the decimal digits, with a leading minus
sign for a negative value. -/
def fmt_d (v : Int) : String := toString v

/-- Wrap an integer into the range of a 32-bit two's complement `int`. -/
def wrap32 (v : Int) : Int := (v + 2 ^ 31) % 2 ^ 32 - 2 ^ 31

/-- Bitwise or of two `int` values (32-bit two's complement). -/
def bitOr32 (a b : Int) : Int :=
  wrap32 (Int.ofNat (Nat.lor (a % 2 ^ 32).toNat (b % 2 ^ 32).toNat))

/-- Parse trees of the side-effect-free C expressions of type `int` that stand
as the argument of `IOT_LOG_CONN_STATUS`: an integer constant or enumerator, an
identifier, a parenthesised expression, and the operators `==`, `|` and `?:`.
In C `==` binds tighter than `|`, which binds tighter than `?:`; an operand
that binds less tightly than its position allows stands under `paren` (see
`CExpr.isParseTree`). -/
inductive CExpr where
  | const (v : Int)
  | var (name : String)
  | paren (e : CExpr)
  | eq (a b : CExpr)
  | bitOr (a b : CExpr)
  | cond (c a b : CExpr)
  deriving DecidableEq, Repr

/-- Precedence level of the expression's outermost form: 3 for a constant, an
identifier or a parenthesised expression, 2 for `==`, 1 for `|`, 0 for `?:`. -/
def CExpr.level : CExpr → Nat
  | .const _ => 3
  | .var _ => 3
  | .paren _ => 3
  | .eq _ _ => 2
  | .bitOr _ _ => 1
  | .cond _ _ _ => 0

/-- Whether the tree is the parse of its own tokens under the C grammar: `==`
and `|` associate to the left and take operands of at least their own level on
the left and of a higher level on the right, and the condition of `?:` is of a
higher level than `?:`. -/
def CExpr.isParseTree : CExpr → Bool
  | .const _ => true
  | .var _ => true
  | .paren e => e.isParseTree
  | .eq a b => a.isParseTree && b.isParseTree && decide (2 ≤ a.level) && decide (3 ≤ b.level)
  | .bitOr a b => a.isParseTree && b.isParseTree && decide (1 ≤ a.level) && decide (2 ≤ b.level)
  | .cond c a b => c.isParseTree && a.isParseTree && b.isParseTree && decide (1 ≤ c.level)

/-- Value of an expression, given the values of the identifiers. -/
def CExpr.eval (env : String → Int) : CExpr → Int
  | .const v => v
  | .var name => env name
  | .paren e => e.eval env
  | .eq a b => if a.eval env = b.eval env then 1 else 0
  | .bitOr a b => bitOr32 (a.eval env) (b.eval env)
  | .cond c a b => if c.eval env ≠ 0 then a.eval env else b.eval env

/-- Parse tree of the token sequence `status == k` that the macro body produces
when the tokens of the argument `status` are substituted without parentheses
(log header lines 65 and 67): `a | b == k` is `a | (b == k)` and
`c ? a : b == k` is `c ? a : (b == k)`, while a constant, an identifier, a
parenthesised expression or an `==` expression is the left operand of the new
`==`. -/
def CExpr.spliceEq : CExpr → CExpr → CExpr
  | .bitOr a b, k => .bitOr a (b.spliceEq k)
  | .cond c a b, k => .cond c a (b.spliceEq k)
  | .const v, k => .eq (.const v) k
  | .var name, k => .eq (.var name) k
  | .paren e, k => .eq (.paren e) k
  | .eq a b, k => .eq (.eq a b) k

/-- Whether the expression binds at least as tightly as `==`, so that it stays
one operand when `== k` is written after its tokens. -/
def CExpr.bindsAsOperand : CExpr → Bool
  | .bitOr _ _ => false
  | .cond _ _ _ => false
  | _ => true

/-- `IOT_LOG_CONN_STATUS(status)` (log header lines 63-72): the messages one
expansion emits for the argument expression `status`.  The two conditions are
the expressions `status == SUCCESS` and `status == FAILURE` as the substituted
tokens parse; as the second argument of `IOT_WARN` (line 70) the argument is an
expression of its own. -/
def IOT_LOG_CONN_STATUS (env : String → Int) (status : CExpr) : List LogRecord :=
  if (status.spliceEq (.const IoT_Error_t.SUCCESS.toInt)).eval env ≠ 0 then
    [IOT_INFO "Connection status: SUCCESS"]
  else if (status.spliceEq (.const IoT_Error_t.FAILURE.toInt)).eval env ≠ 0 then
    [IOT_ERROR "Connection status: FAILURE"]
  else
    [IOT_WARN ("Connection status: " ++ fmt_d (status.eval env))]

/-! ## `aws_iot_config.h`: configuration constants -/

/-- `AWS_IOT_MQTT_MIN_RECONNECT_WAIT_INTERVAL`, in milliseconds (config header line 34). -/
def AWS_IOT_MQTT_MIN_RECONNECT_WAIT_INTERVAL : Nat := 1000

/-- `AWS_IOT_MQTT_MAX_RECONNECT_WAIT_INTERVAL`, in milliseconds (config header line 42). -/
def AWS_IOT_MQTT_MAX_RECONNECT_WAIT_INTERVAL : Nat := 128000

/-- The closed form the specification gives for the wait before the `N`th
reconnect attempt: `min(max_interval, min_interval * 2^(N-1))`, at the
configured bounds. -/
def cappedReconnectWait (N : Nat) : Nat :=
  min AWS_IOT_MQTT_MAX_RECONNECT_WAIT_INTERVAL
    (AWS_IOT_MQTT_MIN_RECONNECT_WAIT_INTERVAL * 2 ^ (N - 1))

/-! ## Error taxonomy of the specification -/

/-- The five classes of the specification's error taxonomy. -/
inductive ErrorClass where
  | success
  | genericFailure
  | networkFault
  | reconnectInfo
  | mqttFault
  deriving DecidableEq, Repr

/-- The class the specification's taxonomy puts each code in: success; generic
failure; the network-layer faults socket, TLS, timeout; the two
reconnect-lifecycle informational codes; the MQTT-protocol-level faults. -/
def IoT_Error_t.errorClass : IoT_Error_t → ErrorClass
  | .SUCCESS => .success
  | .FAILURE => .genericFailure
  | .NETWORK_TCP_SOCKET_ERROR => .networkFault
  | .NETWORK_SSL_CONNECT_ERROR => .networkFault
  | .NETWORK_TIMEOUT_ERROR => .networkFault
  | .NETWORK_RECONNECTED => .reconnectInfo
  | .NETWORK_ATTEMPTING_RECONNECT => .reconnectInfo
  | .MQTT_REQUEST_TIMEOUT_ERROR => .mqttFault
  | .MQTT_CONNECTION_ERROR => .mqttFault
  | .MQTT_NOTHING_TO_READ => .mqttFault
  | .MQTT_UNEXPECTED_CLIENT_STATE => .mqttFault
  | .MQTT_INVALID_TLS_HANDSHAKE => .mqttFault

/-- A code is a failure, in the specification's words, when it is neither the
success code nor one of the two reconnect-lifecycle informational codes. -/
def IoT_Error_t.isFailure (e : IoT_Error_t) : Bool :=
  decide (e.errorClass ≠ ErrorClass.success ∧ e.errorClass ≠ ErrorClass.reconnectInfo)

/-- Number of codes of the enumeration in a class of the taxonomy. -/
def classSize (k : ErrorClass) : Nat :=
  (IoT_Error_t.all.filter (fun e => decide (e.errorClass = k))).length

/-! ## The client operations

The header declares the operations as prototypes over an opaque
`AWS_IoT_Client`; their bodies are not part of the header set.  The definitions
of this section are therefore modelled from the contract the specification
gives for each operation (its section 4.1).  What the network, TLS and MQTT
layers below the interface do is an argument of each operation. -/

/-- Modelled from the spec: the fields of the opaque `AWS_IoT_Client` handle
that the contract of the operations speaks about (the structure's body is
missing from the header): the current lifecycle state, the auto-reconnect flag
and the current reconnect wait interval in milliseconds. -/
structure AWS_IoT_Client where
  clientState : IoT_Client_State_t
  isAutoReconnectEnabled : Bool
  currentReconnectWaitInterval : Nat
  deriving DecidableEq, Repr

/-- Initialisation parameters, `IoT_Client_Init_Params` (header lines 96-108).
A `char *` is `none` when it is `NULL`; the disconnect handler and its opaque
data are left out. -/
structure IoT_Client_Init_Params where
  pHostURL : Option String
  port : Nat
  pRootCALocation : Option String
  pDeviceCertLocation : Option String
  pDevicePrivateKeyLocation : Option String
  mqttCommandTimeout_ms : Nat
  tlsHandshakeTimeout_ms : Nat
  isSSLHostnameVerify : Bool
  enableAutoReconnect : Bool
  deriving DecidableEq, Repr

/-- Modelled from the spec: a handle before `init`, in state INVALID (the
zero-initialised handle; the structure's body is missing from the header). -/
def AWS_IoT_Client.uninitialized : AWS_IoT_Client :=
  ⟨IoT_Client_State_t.CLIENT_STATE_INVALID, false, 0⟩

/-- Modelled from the spec: the body of `aws_iot_mqtt_init` is missing.
"valid only from INVALID; stores endpoint/TLS/timeout configuration; on success
transitions to INITIALIZED; fails with a generic failure code if parameters are
malformed (e.g., missing host)". -/
def aws_iot_mqtt_init (c : AWS_IoT_Client) (p : IoT_Client_Init_Params) :
    IoT_Error_t × AWS_IoT_Client :=
  if c.clientState ≠ IoT_Client_State_t.CLIENT_STATE_INVALID then
    (IoT_Error_t.MQTT_UNEXPECTED_CLIENT_STATE, c)
  else if p.pHostURL = none then
    (IoT_Error_t.FAILURE, c)
  else
    (IoT_Error_t.SUCCESS,
      ⟨IoT_Client_State_t.CLIENT_STATE_INITIALIZED, p.enableAutoReconnect,
        AWS_IOT_MQTT_MIN_RECONNECT_WAIT_INTERVAL⟩)

/-- Modelled from the spec: the body of `aws_iot_mqtt_connect` is missing.
"valid only from INITIALIZED or DISCONNECTED; transitions to CONNECTING, then
CONNECTED on success or back to a failure-reported state on error"; the wait
interval "resets to minimum after a successful connect".  `net` is the result of
the TCP/TLS/MQTT connect below the interface; on an error the handle goes back
to the state it came from and the error is reported. -/
def aws_iot_mqtt_connect (c : AWS_IoT_Client) (net : IoT_Error_t) :
    IoT_Error_t × AWS_IoT_Client :=
  if c.clientState ≠ IoT_Client_State_t.CLIENT_STATE_INITIALIZED
      ∧ c.clientState ≠ IoT_Client_State_t.CLIENT_STATE_DISCONNECTED then
    (IoT_Error_t.MQTT_UNEXPECTED_CLIENT_STATE, c)
  else if net = IoT_Error_t.SUCCESS then
    (IoT_Error_t.SUCCESS,
      ⟨IoT_Client_State_t.CLIENT_STATE_CONNECTED, c.isAutoReconnectEnabled,
        AWS_IOT_MQTT_MIN_RECONNECT_WAIT_INTERVAL⟩)
  else
    (net, c)

/-- Modelled from the spec: the body of `aws_iot_mqtt_attempt_reconnect` is
missing.  "valid only when not already CONNECTED; ... on success reports a
distinct reconnected outcome (not plain success) ...; increases wait interval
geometrically (doubling, capped at maximum) after each failed attempt and resets
to minimum after a successful connect".  `net` is the result of the connect
attempt below the interface. -/
def aws_iot_mqtt_attempt_reconnect (c : AWS_IoT_Client) (net : IoT_Error_t) :
    IoT_Error_t × AWS_IoT_Client :=
  if c.clientState = IoT_Client_State_t.CLIENT_STATE_CONNECTED then
    (IoT_Error_t.MQTT_UNEXPECTED_CLIENT_STATE, c)
  else if net = IoT_Error_t.SUCCESS then
    (IoT_Error_t.NETWORK_RECONNECTED,
      ⟨IoT_Client_State_t.CLIENT_STATE_CONNECTED, c.isAutoReconnectEnabled,
        AWS_IOT_MQTT_MIN_RECONNECT_WAIT_INTERVAL⟩)
  else
    (net,
      ⟨c.clientState, c.isAutoReconnectEnabled,
        min AWS_IOT_MQTT_MAX_RECONNECT_WAIT_INTERVAL (2 * c.currentReconnectWaitInterval)⟩)

/-- Modelled from the spec: the body of `aws_iot_mqtt_subscribe` is missing.
"valid only from CONNECTED; ... transitions through SUBSCRIBING and back to
CONNECTED".  `rc` is the result of the SUBSCRIBE exchange below the interface. -/
def aws_iot_mqtt_subscribe (c : AWS_IoT_Client) (rc : IoT_Error_t) :
    IoT_Error_t × AWS_IoT_Client :=
  if c.clientState ≠ IoT_Client_State_t.CLIENT_STATE_CONNECTED then
    (IoT_Error_t.MQTT_UNEXPECTED_CLIENT_STATE, c)
  else
    (rc, c)

/-- Modelled from the spec: the body of `aws_iot_mqtt_unsubscribe` is missing.
"valid only from CONNECTED; removes the registration for an exact topic filter"
and "leaves state at CONNECTED".  `rc` is the result of the UNSUBSCRIBE exchange
below the interface. -/
def aws_iot_mqtt_unsubscribe (c : AWS_IoT_Client) (rc : IoT_Error_t) :
    IoT_Error_t × AWS_IoT_Client :=
  if c.clientState ≠ IoT_Client_State_t.CLIENT_STATE_CONNECTED then
    (IoT_Error_t.MQTT_UNEXPECTED_CLIENT_STATE, c)
  else
    (rc, c)

/-- Modelled from the spec: the body of `aws_iot_mqtt_publish` is missing.
"valid only from CONNECTED; QoS0 fails silently on transport loss (no
acknowledgment wait); QoS1 blocks (up to the command timeout) for acknowledgment
and fails with a timeout error code if none arrives", which "leaves the
connection state unchanged".  `acked` says whether the acknowledgment arrived
within the command timeout.  A `qos` that is neither QOS0 nor QOS1 is outside
the specification's data model ("QoS restricted to {0,1}"), which names no
outcome for it; the model reports the generic failure and leaves the handle
unchanged. -/
def aws_iot_mqtt_publish (c : AWS_IoT_Client) (p : IoT_Publish_Message_Params)
    (acked : Bool) : IoT_Error_t × AWS_IoT_Client :=
  if c.clientState ≠ IoT_Client_State_t.CLIENT_STATE_CONNECTED then
    (IoT_Error_t.MQTT_UNEXPECTED_CLIENT_STATE, c)
  else if p.qos = QoS_t.QOS0 then
    (IoT_Error_t.SUCCESS, c)
  else if p.qos = QoS_t.QOS1 then
    if acked then (IoT_Error_t.SUCCESS, c)
    else (IoT_Error_t.MQTT_REQUEST_TIMEOUT_ERROR, c)
  else
    (IoT_Error_t.FAILURE, c)

/-- Modelled from the spec: the body of `aws_iot_mqtt_yield` is missing.
"valid only from CONNECTED or DISCONNECTED; ... if the connection is lost during
yield and auto-reconnect is enabled, internally drives reconnect attempts and
returns a distinct attempting reconnect or reconnected outcome rather than plain
success".  `linkUp` says whether the transport is alive during the call and
`net` is what the layers below the interface report: the result of the connect
attempt when a reconnect is driven, and the code handed back to the caller when
the connection is lost with auto-reconnect disabled, an outcome the
specification does not name. -/
def aws_iot_mqtt_yield (c : AWS_IoT_Client) (linkUp : Bool) (net : IoT_Error_t) :
    IoT_Error_t × AWS_IoT_Client :=
  if c.clientState ≠ IoT_Client_State_t.CLIENT_STATE_CONNECTED
      ∧ c.clientState ≠ IoT_Client_State_t.CLIENT_STATE_DISCONNECTED then
    (IoT_Error_t.MQTT_UNEXPECTED_CLIENT_STATE, c)
  else if c.clientState = IoT_Client_State_t.CLIENT_STATE_CONNECTED ∧ linkUp = true then
    (IoT_Error_t.SUCCESS, c)
  else if c.isAutoReconnectEnabled = true then
    let lost : AWS_IoT_Client :=
      ⟨IoT_Client_State_t.CLIENT_STATE_DISCONNECTED, c.isAutoReconnectEnabled,
        c.currentReconnectWaitInterval⟩
    let r := aws_iot_mqtt_attempt_reconnect lost net
    if r.1 = IoT_Error_t.NETWORK_RECONNECTED then r
    else (IoT_Error_t.NETWORK_ATTEMPTING_RECONNECT, r.2)
  else
    (net,
      ⟨IoT_Client_State_t.CLIENT_STATE_DISCONNECTED, c.isAutoReconnectEnabled,
        c.currentReconnectWaitInterval⟩)

/-- Modelled from the spec: the "connected-like" states from which `disconnect`
is valid (the body of `aws_iot_mqtt_disconnect` is missing): CONNECTED and its
transient sub-states PUBLISHING, SUBSCRIBING, UNSUBSCRIBING. -/
def connectedLike : IoT_Client_State_t → Bool
  | .CLIENT_STATE_CONNECTED => true
  | .CLIENT_STATE_PUBLISHING => true
  | .CLIENT_STATE_SUBSCRIBING => true
  | .CLIENT_STATE_UNSUBSCRIBING => true
  | _ => false

/-- Modelled from the spec: the body of `aws_iot_mqtt_disconnect` is missing.
"valid from any connected-like state; transitions through DISCONNECTING to
DISCONNECTED". -/
def aws_iot_mqtt_disconnect (c : AWS_IoT_Client) : IoT_Error_t × AWS_IoT_Client :=
  if connectedLike c.clientState = false then
    (IoT_Error_t.MQTT_UNEXPECTED_CLIENT_STATE, c)
  else
    (IoT_Error_t.SUCCESS,
      ⟨IoT_Client_State_t.CLIENT_STATE_DISCONNECTED, c.isAutoReconnectEnabled,
        c.currentReconnectWaitInterval⟩)

/-- One call of a client operation: the operation together with its arguments
and with what the layers below the interface do during the call. -/
inductive ClientCall where
  | init (p : IoT_Client_Init_Params)
  | connect (net : IoT_Error_t)
  | attempt_reconnect (net : IoT_Error_t)
  | subscribe (rc : IoT_Error_t)
  | unsubscribe (rc : IoT_Error_t)
  | publish (p : IoT_Publish_Message_Params) (acked : Bool)
  | yield (linkUp : Bool) (net : IoT_Error_t)
  | disconnect
  deriving DecidableEq, Repr

/-- The call applied to a handle: the returned code and the handle afterwards. -/
def ClientCall.run : ClientCall → AWS_IoT_Client → IoT_Error_t × AWS_IoT_Client
  | .init p, c => aws_iot_mqtt_init c p
  | .connect net, c => aws_iot_mqtt_connect c net
  | .attempt_reconnect net, c => aws_iot_mqtt_attempt_reconnect c net
  | .subscribe rc, c => aws_iot_mqtt_subscribe c rc
  | .unsubscribe rc, c => aws_iot_mqtt_unsubscribe c rc
  | .publish p acked, c => aws_iot_mqtt_publish c p acked
  | .yield linkUp net, c => aws_iot_mqtt_yield c linkUp net
  | .disconnect, c => aws_iot_mqtt_disconnect c

/-- The specification's table of valid source states, per operation: `init`
only from INVALID; `connect` only from INITIALIZED or DISCONNECTED;
`attempt_reconnect` only when not already CONNECTED; `subscribe`, `unsubscribe`
and `publish` only from CONNECTED; `yield` only from CONNECTED or DISCONNECTED;
`disconnect` from any connected-like state. -/
def ClientCall.validSource : ClientCall → IoT_Client_State_t → Bool
  | .init _, s => decide (s = .CLIENT_STATE_INVALID)
  | .connect _, s => decide (s = .CLIENT_STATE_INITIALIZED ∨ s = .CLIENT_STATE_DISCONNECTED)
  | .attempt_reconnect _, s => decide (s ≠ .CLIENT_STATE_CONNECTED)
  | .subscribe _, s => decide (s = .CLIENT_STATE_CONNECTED)
  | .unsubscribe _, s => decide (s = .CLIENT_STATE_CONNECTED)
  | .publish _ _, s => decide (s = .CLIENT_STATE_CONNECTED)
  | .yield _ _, s => decide (s = .CLIENT_STATE_CONNECTED ∨ s = .CLIENT_STATE_DISCONNECTED)
  | .disconnect, s => connectedLike s

/-- The handle after a run of reconnect attempts, one per element of `nets`
(the result of each attempt's connect below the interface), oldest first. -/
def reconnectAttempts (nets : List IoT_Error_t) (c : AWS_IoT_Client) : AWS_IoT_Client :=
  nets.foldl (fun h net => (aws_iot_mqtt_attempt_reconnect h net).2) c

/-! ## Properties of the enumerations -/

/-- C1: the error enumeration consists of exactly the twelve outcomes success,
generic failure, TCP socket error, TLS connect error, timeout error,
reconnected, attempting reconnect, request-timeout, connection error,
nothing-to-read, unexpected-client-state and invalid TLS handshake, and their
integer values are pairwise distinct, so a returned value identifies exactly
one outcome. -/
theorem IoT_Error_t_twelve_distinct_codes :
    IoT_Error_t.all.length = 12
    ∧ (∀ e : IoT_Error_t, e ∈ IoT_Error_t.all)
    ∧ IoT_Error_t.all.Nodup
    ∧ IoT_Error_t.all.map IoT_Error_t.ident =
        ["SUCCESS", "FAILURE", "NETWORK_TCP_SOCKET_ERROR", "NETWORK_SSL_CONNECT_ERROR",
         "NETWORK_TIMEOUT_ERROR", "NETWORK_RECONNECTED", "NETWORK_ATTEMPTING_RECONNECT",
         "MQTT_REQUEST_TIMEOUT_ERROR", "MQTT_CONNECTION_ERROR", "MQTT_NOTHING_TO_READ",
         "MQTT_UNEXPECTED_CLIENT_STATE", "MQTT_INVALID_TLS_HANDSHAKE"]
    ∧ IoT_Error_t.all.map IoT_Error_t.toInt = [0, -1, -2, -3, -4, -5, -6, -7, -8, -9, -10, -11]
    ∧ (IoT_Error_t.all.map IoT_Error_t.toInt).Nodup
    ∧ (∀ a b : IoT_Error_t, a.toInt = b.toInt → a = b)
    ∧ (∀ v : Int, ∀ a b : IoT_Error_t, a.toInt = v → b.toInt = v → a = b) := by
  refine ⟨rfl, ?_, by decide, by decide, by decide, by decide, ?_, ?_⟩
  · intro e
    cases e <;> decide
  · intro a b
    cases a <;> cases b <;> decide
  · intro v a b ha hb
    have h : a.toInt = b.toInt := ha.trans hb.symm
    revert h
    cases a <;> cases b <;> decide

/-- C2, as the claim states it, fails: NETWORK_RECONNECTED has the negative
value -5 and is not a failure, so "negative if and only if failure" does not
hold for it. -/
theorem negative_value_without_failure :
    IoT_Error_t.NETWORK_RECONNECTED.toInt = -5
    ∧ IoT_Error_t.NETWORK_RECONNECTED.toInt < 0
    ∧ IoT_Error_t.NETWORK_RECONNECTED.isFailure = false
    ∧ ¬ (IoT_Error_t.NETWORK_RECONNECTED.toInt < 0
          ↔ IoT_Error_t.NETWORK_RECONNECTED.isFailure = true) := by
  decide

/-- C2, amended: SUCCESS is the only code with value 0; every failure code has
a negative value; a code has a negative value if and only if it is not SUCCESS;
and the codes that are negative without being failures are exactly the two
informational reconnect outcomes NETWORK_RECONNECTED and
NETWORK_ATTEMPTING_RECONNECT. -/
theorem zero_is_success_failures_negative :
    (∀ e : IoT_Error_t, e.toInt = 0 ↔ e = IoT_Error_t.SUCCESS)
    ∧ (∀ e : IoT_Error_t, e.isFailure = true → e.toInt < 0)
    ∧ (∀ e : IoT_Error_t, e.toInt < 0 ↔ e ≠ IoT_Error_t.SUCCESS)
    ∧ (∀ e : IoT_Error_t, (e.toInt < 0 ∧ e.isFailure = false) ↔
        (e = IoT_Error_t.NETWORK_RECONNECTED ∨ e = IoT_Error_t.NETWORK_ATTEMPTING_RECONNECT))
    ∧ IoT_Error_t.SUCCESS.isFailure = false := by
  refine ⟨?_, ?_, ?_, ?_, by decide⟩ <;> intro e <;> cases e <;> decide

/-- C3, as the claim states it, fails: five codes of the enumeration carry the
`MQTT_` prefix, not four, and the class sizes 1 + 1 + 3 + 2 + 4 give eleven,
not the twelve codes of the enumeration. -/
theorem mqtt_fault_count_is_not_four :
    IoT_Error_t.all.filter IoT_Error_t.hasMqttPrefix =
        [IoT_Error_t.MQTT_REQUEST_TIMEOUT_ERROR, IoT_Error_t.MQTT_CONNECTION_ERROR,
         IoT_Error_t.MQTT_NOTHING_TO_READ, IoT_Error_t.MQTT_UNEXPECTED_CLIENT_STATE,
         IoT_Error_t.MQTT_INVALID_TLS_HANDSHAKE]
    ∧ ¬ ((IoT_Error_t.all.filter IoT_Error_t.hasMqttPrefix).length = 4)
    ∧ ¬ (classSize ErrorClass.mqttFault = 4)
    ∧ ¬ (1 + 1 + 3 + 2 + 4 = IoT_Error_t.all.length) := by
  decide

/-- C3, amended: the taxonomy partitions the enumeration into one success
code, one generic failure code, three network-layer faults, two
reconnect-lifecycle informational codes and five MQTT-protocol-level faults;
the MQTT-protocol-level faults are exactly the five `MQTT_`-prefixed codes, and
the class sizes sum to the size of the enumeration. -/
theorem taxonomy_class_sizes :
    classSize ErrorClass.success = 1
    ∧ classSize ErrorClass.genericFailure = 1
    ∧ classSize ErrorClass.networkFault = 3
    ∧ classSize ErrorClass.reconnectInfo = 2
    ∧ classSize ErrorClass.mqttFault = 5
    ∧ (IoT_Error_t.all.filter IoT_Error_t.hasMqttPrefix).length = 5
    ∧ (∀ e : IoT_Error_t, e.errorClass = ErrorClass.mqttFault ↔ e.hasMqttPrefix = true)
    ∧ (∀ e : IoT_Error_t, e.hasNetworkPrefix = true ↔
        (e.errorClass = ErrorClass.networkFault ∨ e.errorClass = ErrorClass.reconnectInfo))
    ∧ classSize ErrorClass.success + classSize ErrorClass.genericFailure
        + classSize ErrorClass.networkFault + classSize ErrorClass.reconnectInfo
        + classSize ErrorClass.mqttFault = IoT_Error_t.all.length := by
  refine ⟨by decide, by decide, by decide, by decide, by decide, by decide, ?_, ?_, by decide⟩
    <;> intro e <;> cases e <;> decide

/-- C5: the client state type has exactly the nine states INVALID,
INITIALIZED, CONNECTING, CONNECTED, DISCONNECTED, DISCONNECTING, PUBLISHING,
SUBSCRIBING, UNSUBSCRIBING, their values are pairwise distinct, and INVALID is
the state with value 0. -/
theorem IoT_Client_State_t_nine_distinct_states :
    IoT_Client_State_t.all.length = 9
    ∧ (∀ s : IoT_Client_State_t, s ∈ IoT_Client_State_t.all)
    ∧ IoT_Client_State_t.all.Nodup
    ∧ IoT_Client_State_t.all.map IoT_Client_State_t.toInt = [0, 1, 2, 3, 4, 5, 6, 7, 8]
    ∧ (∀ a b : IoT_Client_State_t, a.toInt = b.toInt → a = b)
    ∧ IoT_Client_State_t.CLIENT_STATE_INVALID.toInt = 0
    ∧ (∀ s : IoT_Client_State_t, s.toInt = 0 ↔ s = IoT_Client_State_t.CLIENT_STATE_INVALID) := by
  refine ⟨rfl, ?_, by decide, by decide, ?_, rfl, ?_⟩
  · intro s
    cases s <;> decide
  · intro a b
    cases a <;> cases b <;> decide
  · intro s
    cases s <;> decide

/-- C8, as the claim states it, fails: the `qos` field of the publish message
parameters is an object of the enumeration type and holds the integer 2 just as
well, a value that is neither QOS0 nor QOS1; so `QoS_t` has values besides the
two enumerators and the field is not restricted to 0 and 1. -/
theorem qos_field_holds_other_value :
    (IoT_Publish_Message_Params.mk ⟨2⟩ [112, 105, 110, 103] 4 false).qos.toInt = 2
    ∧ (IoT_Publish_Message_Params.mk ⟨2⟩ [112, 105, 110, 103] 4 false).qos ≠ QoS_t.QOS0
    ∧ (IoT_Publish_Message_Params.mk ⟨2⟩ [112, 105, 110, 103] 4 false).qos ≠ QoS_t.QOS1
    ∧ (IoT_Publish_Message_Params.mk ⟨2⟩ [112, 105, 110, 103] 4 false).qos.isEnumerator = false
    ∧ ¬ ((IoT_Publish_Message_Params.mk ⟨2⟩ [112, 105, 110, 103] 4 false).qos.toInt = 0
          ∨ (IoT_Publish_Message_Params.mk ⟨2⟩ [112, 105, 110, 103] 4 false).qos.toInt = 1) := by
  decide

/-- C8, amended: `QoS_t` declares exactly two enumerators, QOS0 with value 0
and QOS1 with value 1; they are distinct, and a value of the type, in
particular the `qos` field of the publish message parameters, is one of the
declared enumerators if and only if it is 0 or 1. -/
theorem QoS_t_two_enumerators :
    QoS_t.enumerators.length = 2
    ∧ QoS_t.enumerators.map Prod.fst = ["QOS0", "QOS1"]
    ∧ QoS_t.enumerators.map (fun e => e.2.toInt) = [0, 1]
    ∧ QoS_t.QOS0.toInt = 0
    ∧ QoS_t.QOS1.toInt = 1
    ∧ QoS_t.QOS0 ≠ QoS_t.QOS1
    ∧ (∀ q : QoS_t, q.isEnumerator = true ↔ (q = QoS_t.QOS0 ∨ q = QoS_t.QOS1))
    ∧ (∀ q : QoS_t, q.isEnumerator = true ↔ (q.toInt = 0 ∨ q.toInt = 1))
    ∧ (∀ p : IoT_Publish_Message_Params,
        p.qos.isEnumerator = true ↔ (p.qos.toInt = 0 ∨ p.qos.toInt = 1)) := by
  have key : ∀ q : QoS_t, q.isEnumerator = true ↔ (q = QoS_t.QOS0 ∨ q = QoS_t.QOS1) := by
    intro q
    simp [QoS_t.isEnumerator, QoS_t.enumerators]
  have val : ∀ q : QoS_t, (q = QoS_t.QOS0 ∨ q = QoS_t.QOS1) ↔ (q.toInt = 0 ∨ q.toInt = 1) := by
    intro q
    cases q with
    | mk v =>
      constructor
      · rintro (h | h)
        · exact Or.inl (congrArg QoS_t.toInt h)
        · exact Or.inr (congrArg QoS_t.toInt h)
      · rintro (h | h)
        · exact Or.inl (congrArg QoS_t.mk h)
        · exact Or.inr (congrArg QoS_t.mk h)
  refine ⟨rfl, by decide, by decide, rfl, rfl, by decide, key, ?_, ?_⟩
  · intro q
    exact (key q).trans (val q)
  · intro p
    exact (key p.qos).trans (val p.qos)

/-! ## Properties of the logging helpers -/

/-- C4: `IOT_MQTT_ERROR_STRING` yields, for each of the twelve codes, the
string spelling that code's identifier (-10 gives
"MQTT_UNEXPECTED_CLIENT_STATE"); for every integer that is not one of the
twelve codes it yields "UNKNOWN_ERROR"; so no two codes get the same string and
no code gets "UNKNOWN_ERROR". -/
theorem IOT_MQTT_ERROR_STRING_names_codes :
    (∀ e : IoT_Error_t, IOT_MQTT_ERROR_STRING e.toInt = e.ident)
    ∧ IOT_MQTT_ERROR_STRING (-10) = "MQTT_UNEXPECTED_CLIENT_STATE"
    ∧ (∀ v : Int, (∀ e : IoT_Error_t, e.toInt ≠ v) → IOT_MQTT_ERROR_STRING v = "UNKNOWN_ERROR")
    ∧ (∀ a b : IoT_Error_t,
        IOT_MQTT_ERROR_STRING a.toInt = IOT_MQTT_ERROR_STRING b.toInt → a = b)
    ∧ (∀ e : IoT_Error_t, IOT_MQTT_ERROR_STRING e.toInt ≠ "UNKNOWN_ERROR") := by
  refine ⟨?_, by decide, ?_, ?_, ?_⟩
  · intro e
    cases e <;> decide
  · intro v h
    unfold IOT_MQTT_ERROR_STRING
    rw [if_neg (Ne.symm (h IoT_Error_t.SUCCESS)),
      if_neg (Ne.symm (h IoT_Error_t.FAILURE)),
      if_neg (Ne.symm (h IoT_Error_t.NETWORK_TCP_SOCKET_ERROR)),
      if_neg (Ne.symm (h IoT_Error_t.NETWORK_SSL_CONNECT_ERROR)),
      if_neg (Ne.symm (h IoT_Error_t.NETWORK_TIMEOUT_ERROR)),
      if_neg (Ne.symm (h IoT_Error_t.NETWORK_RECONNECTED)),
      if_neg (Ne.symm (h IoT_Error_t.NETWORK_ATTEMPTING_RECONNECT)),
      if_neg (Ne.symm (h IoT_Error_t.MQTT_REQUEST_TIMEOUT_ERROR)),
      if_neg (Ne.symm (h IoT_Error_t.MQTT_CONNECTION_ERROR)),
      if_neg (Ne.symm (h IoT_Error_t.MQTT_NOTHING_TO_READ)),
      if_neg (Ne.symm (h IoT_Error_t.MQTT_UNEXPECTED_CLIENT_STATE)),
      if_neg (Ne.symm (h IoT_Error_t.MQTT_INVALID_TLS_HANDSHAKE))]
  · intro a b
    cases a <;> cases b <;> decide
  · intro e
    cases e <;> decide

/-- The digit accumulator of `Nat.toDigitsCore` is a suffix of its result. -/
theorem toDigitsCore_accumulator (fuel : Nat) :
    ∀ (n : Nat) (ds : List Char),
      Nat.toDigitsCore 10 fuel n ds = Nat.toDigitsCore 10 fuel n [] ++ ds := by
  induction fuel with
  | zero =>
    intro n ds
    simp [Nat.toDigitsCore]
  | succ k ih =>
    intro n ds
    simp only [Nat.toDigitsCore]
    by_cases h : n / 10 = 0
    · simp [h]
    · rw [if_neg h, if_neg h, ih (n / 10) (Nat.digitChar (n % 10) :: ds),
        ih (n / 10) [Nat.digitChar (n % 10)]]
      simp

/-- With enough fuel, the digits of a number of two or more digits are the
digits of its tenth followed by its last digit. -/
theorem toDigitsCore_step (n : Nat) :
    ∀ fuel : Nat, n < fuel → n / 10 ≠ 0 →
      Nat.toDigitsCore 10 fuel n [] = Nat.toDigits 10 (n / 10) ++ [Nat.digitChar (n % 10)] := by
  induction n using Nat.strong_induction_on with
  | _ n ih =>
    intro fuel hfuel hn
    cases fuel with
    | zero => omega
    | succ k =>
      simp only [Nat.toDigitsCore]
      rw [if_neg hn, toDigitsCore_accumulator k (n / 10) [Nat.digitChar (n % 10)]]
      congr 1
      have hlt : n / 10 < n := Nat.div_lt_self (by omega) (by decide)
      by_cases h2 : n / 10 / 10 = 0
      · have hk : 0 < k := by omega
        obtain ⟨j, rfl⟩ : ∃ j, k = j + 1 := ⟨k - 1, by omega⟩
        simp [Nat.toDigits, Nat.toDigitsCore, h2]
      · rw [ih (n / 10) hlt k (by omega) h2]
        unfold Nat.toDigits
        rw [ih (n / 10) hlt (n / 10 + 1) (by omega) h2]
        rfl

/-- The `%d` rendering is the decimal numeral: the ten digits render as
themselves, a natural number of two or more digits renders as its tenth
followed by its last digit, and a negative number renders as a minus sign
followed by its absolute value.  These equations determine `fmt_d` on every
integer. -/
theorem fmt_d_decimal :
    (List.range 10).map (fun d => fmt_d (Int.ofNat d)) =
        ["0", "1", "2", "3", "4", "5", "6", "7", "8", "9"]
    ∧ (∀ n : Nat, 10 ≤ n →
        fmt_d (Int.ofNat n) = fmt_d (Int.ofNat (n / 10)) ++ fmt_d (Int.ofNat (n % 10)))
    ∧ (∀ n : Nat, 0 < n → fmt_d (-(Int.ofNat n)) = "-" ++ fmt_d (Int.ofNat n)) := by
  refine ⟨by decide, ?_, ?_⟩
  · intro n hn
    have hdiv : n / 10 ≠ 0 := by omega
    have h1 : Nat.toDigits 10 n =
        Nat.toDigits 10 (n / 10) ++ [Nat.digitChar (n % 10)] :=
      toDigitsCore_step n (n + 1) (Nat.lt_succ_self n) hdiv
    have h2 : Nat.toDigits 10 (n % 10) = [Nat.digitChar (n % 10)] := by
      have : n % 10 / 10 = 0 := by omega
      simp [Nat.toDigits, Nat.toDigitsCore, this]
    show (Nat.toDigits 10 n).asString =
      (Nat.toDigits 10 (n / 10)).asString ++ (Nat.toDigits 10 (n % 10)).asString
    rw [h1, h2]
    rfl
  · intro n hn
    cases n with
    | zero => omega
    | succ k => rfl

/-- For an argument that stays one operand of `==` (a constant, an identifier,
a parenthesised expression, an `==` expression), `IOT_LOG_CONN_STATUS` emits
exactly one message chosen by the argument's value: the info message
"Connection status: SUCCESS" under the tag "aws_iot" when the value is 0, the
error message "Connection status: FAILURE" when it is -1, and otherwise the
warning "Connection status: " followed by the decimal value. -/
theorem IOT_LOG_CONN_STATUS_operand_argument (env : String → Int) (status : CExpr)
    (h : status.bindsAsOperand = true) :
    (status.eval env = 0 → IOT_LOG_CONN_STATUS env status =
        [⟨LogLevel.info, "aws_iot", "Connection status: SUCCESS"⟩])
    ∧ (status.eval env = -1 → IOT_LOG_CONN_STATUS env status =
        [⟨LogLevel.error, "aws_iot", "Connection status: FAILURE"⟩])
    ∧ (status.eval env ≠ 0 → status.eval env ≠ -1 → IOT_LOG_CONN_STATUS env status =
        [⟨LogLevel.warn, "aws_iot", "Connection status: " ++ fmt_d (status.eval env)⟩]) := by
  have hs : ∀ k : Int, (status.spliceEq (.const k)).eval env =
      if status.eval env = k then 1 else 0 := by
    intro k
    cases status with
    | bitOr a b => simp [CExpr.bindsAsOperand] at h
    | cond c a b => simp [CExpr.bindsAsOperand] at h
    | const v => rfl
    | var name => rfl
    | paren e => rfl
    | eq a b => rfl
  have h0 : IoT_Error_t.SUCCESS.toInt = 0 := rfl
  have h1 : IoT_Error_t.FAILURE.toInt = -1 := rfl
  unfold IOT_LOG_CONN_STATUS
  rw [hs, hs, h0, h1]
  refine ⟨?_, ?_, ?_⟩
  · intro hv
    simp [hv, IOT_INFO, AWS_IOT_LOG_TAG]
  · intro hv
    simp [hv, IOT_ERROR, AWS_IOT_LOG_TAG]
  · intro hv0 hv1
    simp [hv0, hv1, IOT_WARN, AWS_IOT_LOG_TAG]

/-- C9 is broken by the macro for an argument that is not parenthesised: the
macro body writes `status == SUCCESS` with the bare parameter (the sibling
macro `IOT_MQTT_ERROR_STRING` writes `(err)`).  For the argument `rc | 0` with
`rc` equal to FAILURE (-1), or equal to NETWORK_RECONNECTED (-5), the status
is -1, or -5, and the macro emits the info message "Connection status:
SUCCESS"; for the argument `ok ? SUCCESS : FAILURE` with `ok` equal to 1 the
status is 0 and the macro emits the warning "Connection status: 0".  The same
arguments in parentheses get the error, warning and info messages the claim
states. -/
theorem IOT_LOG_CONN_STATUS_unparenthesised_argument :
    (CExpr.bitOr (.var "rc") (.const 0)).isParseTree = true
    ∧ (CExpr.cond (.var "ok") (.const IoT_Error_t.SUCCESS.toInt)
          (.const IoT_Error_t.FAILURE.toInt)).isParseTree = true
    ∧ (CExpr.bitOr (.var "rc") (.const 0)).eval (fun _ => -1) = IoT_Error_t.FAILURE.toInt
    ∧ IOT_LOG_CONN_STATUS (fun _ => -1) (.bitOr (.var "rc") (.const 0)) =
        [⟨LogLevel.info, "aws_iot", "Connection status: SUCCESS"⟩]
    ∧ IOT_LOG_CONN_STATUS (fun _ => -1) (.paren (.bitOr (.var "rc") (.const 0))) =
        [⟨LogLevel.error, "aws_iot", "Connection status: FAILURE"⟩]
    ∧ (CExpr.bitOr (.var "rc") (.const 0)).eval (fun _ => -5) =
        IoT_Error_t.NETWORK_RECONNECTED.toInt
    ∧ IOT_LOG_CONN_STATUS (fun _ => -5) (.bitOr (.var "rc") (.const 0)) =
        [⟨LogLevel.info, "aws_iot", "Connection status: SUCCESS"⟩]
    ∧ IOT_LOG_CONN_STATUS (fun _ => -5) (.paren (.bitOr (.var "rc") (.const 0))) =
        [⟨LogLevel.warn, "aws_iot", "Connection status: -5"⟩]
    ∧ (CExpr.cond (.var "ok") (.const IoT_Error_t.SUCCESS.toInt)
          (.const IoT_Error_t.FAILURE.toInt)).eval (fun _ => 1) = IoT_Error_t.SUCCESS.toInt
    ∧ IOT_LOG_CONN_STATUS (fun _ => 1)
          (.cond (.var "ok") (.const IoT_Error_t.SUCCESS.toInt)
            (.const IoT_Error_t.FAILURE.toInt)) =
        [⟨LogLevel.warn, "aws_iot", "Connection status: 0"⟩]
    ∧ IOT_LOG_CONN_STATUS (fun _ => 1)
          (.paren (.cond (.var "ok") (.const IoT_Error_t.SUCCESS.toInt)
            (.const IoT_Error_t.FAILURE.toInt))) =
        [⟨LogLevel.info, "aws_iot", "Connection status: SUCCESS"⟩] := by
  decide

/-! ## Properties of the reconnect bounds -/

/-- C10: the configured reconnect bounds are consistent with a doubling
backoff: 0 < min <= max; max = min * 2^7, so min * 2^(N-1) reaches the maximum
exactly at N = 8 and stays below it before; every uncapped value for N in 1..8
and one further doubling of the maximum (256000) are below 2^32; and for every
N >= 1 the capped interval min(max, min * 2^(N-1)) is non-decreasing in N and
lies between the minimum and the maximum. -/
theorem reconnect_bounds_consistent :
    0 < AWS_IOT_MQTT_MIN_RECONNECT_WAIT_INTERVAL
    ∧ AWS_IOT_MQTT_MIN_RECONNECT_WAIT_INTERVAL ≤ AWS_IOT_MQTT_MAX_RECONNECT_WAIT_INTERVAL
    ∧ AWS_IOT_MQTT_MAX_RECONNECT_WAIT_INTERVAL = AWS_IOT_MQTT_MIN_RECONNECT_WAIT_INTERVAL * 2 ^ 7
    ∧ AWS_IOT_MQTT_MIN_RECONNECT_WAIT_INTERVAL * 2 ^ (8 - 1) =
        AWS_IOT_MQTT_MAX_RECONNECT_WAIT_INTERVAL
    ∧ (∀ N : Nat, 1 ≤ N → N < 8 →
        AWS_IOT_MQTT_MIN_RECONNECT_WAIT_INTERVAL * 2 ^ (N - 1) <
          AWS_IOT_MQTT_MAX_RECONNECT_WAIT_INTERVAL)
    ∧ (∀ N : Nat, 1 ≤ N → N ≤ 8 →
        AWS_IOT_MQTT_MIN_RECONNECT_WAIT_INTERVAL * 2 ^ (N - 1) < 2 ^ 32)
    ∧ 2 * AWS_IOT_MQTT_MAX_RECONNECT_WAIT_INTERVAL = 256000
    ∧ 2 * AWS_IOT_MQTT_MAX_RECONNECT_WAIT_INTERVAL < 2 ^ 32
    ∧ (∀ N : Nat, 1 ≤ N → cappedReconnectWait N ≤ cappedReconnectWait (N + 1))
    ∧ (∀ M N : Nat, 1 ≤ M → M ≤ N → cappedReconnectWait M ≤ cappedReconnectWait N)
    ∧ (∀ N : Nat, 1 ≤ N →
        AWS_IOT_MQTT_MIN_RECONNECT_WAIT_INTERVAL ≤ cappedReconnectWait N
        ∧ cappedReconnectWait N ≤ AWS_IOT_MQTT_MAX_RECONNECT_WAIT_INTERVAL)
    ∧ (∀ N : Nat, 8 ≤ N → cappedReconnectWait N = AWS_IOT_MQTT_MAX_RECONNECT_WAIT_INTERVAL) := by
  have hmono : ∀ M N : Nat, M ≤ N → cappedReconnectWait M ≤ cappedReconnectWait N := by
    intro M N hMN
    unfold cappedReconnectWait
    exact min_le_min (le_refl _)
      (Nat.mul_le_mul_left _ (Nat.pow_le_pow_right (by decide) (Nat.sub_le_sub_right hMN 1)))
  refine ⟨by decide, by decide, by decide, by decide, ?_, ?_, by decide, by decide,
    ?_, ?_, ?_, ?_⟩
  · intro N h1 h8
    interval_cases N <;> decide
  · intro N h1 h8
    interval_cases N <;> decide
  · intro N _
    exact hmono N (N + 1) (Nat.le_succ N)
  · intro M N _ hMN
    exact hmono M N hMN
  · intro N _
    unfold cappedReconnectWait
    refine ⟨le_min (by decide) ?_, min_le_left _ _⟩
    exact Nat.le_mul_of_pos_right _ (Nat.two_pow_pos _)
  · intro N h8
    have h := hmono 8 N h8
    have h8v : cappedReconnectWait 8 = AWS_IOT_MQTT_MAX_RECONNECT_WAIT_INTERVAL := by decide
    have hle : cappedReconnectWait N ≤ AWS_IOT_MQTT_MAX_RECONNECT_WAIT_INTERVAL := by
      unfold cappedReconnectWait
      exact min_le_left _ _
    rw [h8v] at h
    exact le_antisymm hle h

/-! ## Properties of the client operations -/

/-- A failed reconnect attempt from a state other than CONNECTED keeps the
lifecycle state and doubles the wait interval, capped at the maximum. -/
theorem attempt_reconnect_failed (c : AWS_IoT_Client) (net : IoT_Error_t)
    (hstate : c.clientState ≠ IoT_Client_State_t.CLIENT_STATE_CONNECTED)
    (hnet : net ≠ IoT_Error_t.SUCCESS) :
    aws_iot_mqtt_attempt_reconnect c net =
      (net, ⟨c.clientState, c.isAutoReconnectEnabled,
        min AWS_IOT_MQTT_MAX_RECONNECT_WAIT_INTERVAL (2 * c.currentReconnectWaitInterval)⟩) := by
  unfold aws_iot_mqtt_attempt_reconnect
  rw [if_neg hstate, if_neg hnet]

/-- A successful reconnect attempt from a state other than CONNECTED reports
NETWORK_RECONNECTED, enters CONNECTED and resets the wait interval. -/
theorem attempt_reconnect_succeeded (c : AWS_IoT_Client)
    (hstate : c.clientState ≠ IoT_Client_State_t.CLIENT_STATE_CONNECTED) :
    aws_iot_mqtt_attempt_reconnect c IoT_Error_t.SUCCESS =
      (IoT_Error_t.NETWORK_RECONNECTED,
        ⟨IoT_Client_State_t.CLIENT_STATE_CONNECTED, c.isAutoReconnectEnabled,
          AWS_IOT_MQTT_MIN_RECONNECT_WAIT_INTERVAL⟩) := by
  unfold aws_iot_mqtt_attempt_reconnect
  rw [if_neg hstate, if_pos rfl]

/-- Doubling a capped interval and capping again is capping the doubled
uncapped interval. -/
theorem cap_double_cap (m w : Nat) : min m (2 * min m w) = min m (w * 2) := by
  omega

/-- Run of failed reconnect attempts: the lifecycle state is kept and the wait
interval follows the capped doubling sequence. -/
theorem reconnectAttempts_failed (nets : List IoT_Error_t) :
    ∀ (c : AWS_IoT_Client) (j : Nat),
      c.clientState ≠ IoT_Client_State_t.CLIENT_STATE_CONNECTED →
      c.currentReconnectWaitInterval =
        min AWS_IOT_MQTT_MAX_RECONNECT_WAIT_INTERVAL
          (AWS_IOT_MQTT_MIN_RECONNECT_WAIT_INTERVAL * 2 ^ j) →
      (∀ net ∈ nets, net ≠ IoT_Error_t.SUCCESS) →
      (reconnectAttempts nets c).clientState = c.clientState
      ∧ (reconnectAttempts nets c).currentReconnectWaitInterval =
          min AWS_IOT_MQTT_MAX_RECONNECT_WAIT_INTERVAL
            (AWS_IOT_MQTT_MIN_RECONNECT_WAIT_INTERVAL * 2 ^ (j + nets.length)) := by
  induction nets with
  | nil =>
    intro c j _ hw _
    exact ⟨rfl, by simpa [reconnectAttempts] using hw⟩
  | cons net rest ih =>
    intro c j hstate hw hfail
    have hnet : net ≠ IoT_Error_t.SUCCESS := hfail net (List.mem_cons_self net rest)
    have hrest : ∀ n ∈ rest, n ≠ IoT_Error_t.SUCCESS :=
      fun n hn => hfail n (List.mem_cons_of_mem net hn)
    have hstep := attempt_reconnect_failed c net hstate hnet
    have hunfold : reconnectAttempts (net :: rest) c =
        reconnectAttempts rest (aws_iot_mqtt_attempt_reconnect c net).2 := rfl
    rw [hunfold, hstep]
    have hw2 : min AWS_IOT_MQTT_MAX_RECONNECT_WAIT_INTERVAL (2 * c.currentReconnectWaitInterval) =
        min AWS_IOT_MQTT_MAX_RECONNECT_WAIT_INTERVAL
          (AWS_IOT_MQTT_MIN_RECONNECT_WAIT_INTERVAL * 2 ^ (j + 1)) := by
      rw [hw, cap_double_cap, pow_succ, Nat.mul_assoc]
    have h := ih ⟨c.clientState, c.isAutoReconnectEnabled,
      min AWS_IOT_MQTT_MAX_RECONNECT_WAIT_INTERVAL (2 * c.currentReconnectWaitInterval)⟩
      (j + 1) hstate hw2 hrest
    refine ⟨h.1, ?_⟩
    rw [h.2, List.length_cons]
    congr 3
    omega

/-- C6: for every client operation (init, connect, attempt_reconnect,
subscribe, unsubscribe, publish, yield, disconnect), whatever its arguments and
whatever the layers below the interface do, a call on a handle whose current
state is not one of the operation's valid source states returns
MQTT_UNEXPECTED_CLIENT_STATE and leaves the handle unchanged. -/
theorem invalid_source_state_rejected (call : ClientCall) (c : AWS_IoT_Client)
    (h : call.validSource c.clientState = false) :
    call.run c = (IoT_Error_t.MQTT_UNEXPECTED_CLIENT_STATE, c) := by
  cases call <;>
    simp [ClientCall.validSource] at h <;>
    simp [ClientCall.run, aws_iot_mqtt_init, aws_iot_mqtt_connect,
      aws_iot_mqtt_attempt_reconnect, aws_iot_mqtt_subscribe, aws_iot_mqtt_unsubscribe,
      aws_iot_mqtt_publish, aws_iot_mqtt_yield, aws_iot_mqtt_disconnect, h]

/-- C6 at a concrete call: a QoS1 publish on a handle that is INITIALIZED but
not connected is rejected and the handle is unchanged. -/
theorem invalid_source_state_rejected_witness :
    (ClientCall.publish ⟨QoS_t.QOS1, [112, 105, 110, 103], 4, false⟩ true).validSource
        (AWS_IoT_Client.mk IoT_Client_State_t.CLIENT_STATE_INITIALIZED true 1000).clientState
      = false
    ∧ (ClientCall.publish ⟨QoS_t.QOS1, [112, 105, 110, 103], 4, false⟩ true).run
        (AWS_IoT_Client.mk IoT_Client_State_t.CLIENT_STATE_INITIALIZED true 1000)
      = (IoT_Error_t.MQTT_UNEXPECTED_CLIENT_STATE,
          AWS_IoT_Client.mk IoT_Client_State_t.CLIENT_STATE_INITIALIZED true 1000) :=
  ⟨by decide,
    invalid_source_state_rejected
      (ClientCall.publish ⟨QoS_t.QOS1, [112, 105, 110, 103], 4, false⟩ true)
      (AWS_IoT_Client.mk IoT_Client_State_t.CLIENT_STATE_INITIALIZED true 1000) (by decide)⟩

/-- C7: starting from a handle that is not CONNECTED and whose wait interval
is the configured minimum, after N - 1 consecutive failed reconnect attempts
(N >= 1) the wait interval before the Nth attempt is
min(AWS_IOT_MQTT_MAX_RECONNECT_WAIT_INTERVAL,
AWS_IOT_MQTT_MIN_RECONNECT_WAIT_INTERVAL * 2^(N-1)), and a successful attempt
then resets the interval to AWS_IOT_MQTT_MIN_RECONNECT_WAIT_INTERVAL. -/
theorem attempt_reconnect_wait_interval (c : AWS_IoT_Client) (nets : List IoT_Error_t)
    (N : Nat)
    (hstate : c.clientState ≠ IoT_Client_State_t.CLIENT_STATE_CONNECTED)
    (hmin : c.currentReconnectWaitInterval = AWS_IOT_MQTT_MIN_RECONNECT_WAIT_INTERVAL)
    (hfail : ∀ net ∈ nets, net ≠ IoT_Error_t.SUCCESS)
    (hN : nets.length + 1 = N) :
    (reconnectAttempts nets c).currentReconnectWaitInterval =
        min AWS_IOT_MQTT_MAX_RECONNECT_WAIT_INTERVAL
          (AWS_IOT_MQTT_MIN_RECONNECT_WAIT_INTERVAL * 2 ^ (N - 1))
    ∧ (aws_iot_mqtt_attempt_reconnect (reconnectAttempts nets c)
          IoT_Error_t.SUCCESS).2.currentReconnectWaitInterval =
        AWS_IOT_MQTT_MIN_RECONNECT_WAIT_INTERVAL := by
  have hw : c.currentReconnectWaitInterval =
      min AWS_IOT_MQTT_MAX_RECONNECT_WAIT_INTERVAL
        (AWS_IOT_MQTT_MIN_RECONNECT_WAIT_INTERVAL * 2 ^ 0) := by
    rw [hmin]
    decide
  have h := reconnectAttempts_failed nets c 0 hstate hw hfail
  have hstate2 : (reconnectAttempts nets c).clientState ≠
      IoT_Client_State_t.CLIENT_STATE_CONNECTED := by
    rw [h.1]
    exact hstate
  have hsucc := attempt_reconnect_succeeded (reconnectAttempts nets c) hstate2
  refine ⟨?_, ?_⟩
  · rw [h.2, ← hN]
    simp
  · rw [hsucc]

/-- C7 at a concrete run: a handle initialised for host "test.example.com",
then ten failed attempts (N = 11): the interval is capped at 128000, and a
successful attempt resets it to 1000. -/
theorem attempt_reconnect_wait_interval_witness :
    (reconnectAttempts (List.replicate 10 IoT_Error_t.NETWORK_TCP_SOCKET_ERROR)
        (aws_iot_mqtt_init AWS_IoT_Client.uninitialized
          ⟨some "test.example.com", 8883, none, none, none, 20000, 5000, true, true⟩).2
      ).currentReconnectWaitInterval = 128000
    ∧ (aws_iot_mqtt_attempt_reconnect
        (reconnectAttempts (List.replicate 10 IoT_Error_t.NETWORK_TCP_SOCKET_ERROR)
          (aws_iot_mqtt_init AWS_IoT_Client.uninitialized
            ⟨some "test.example.com", 8883, none, none, none, 20000, 5000, true, true⟩).2)
        IoT_Error_t.SUCCESS).2.currentReconnectWaitInterval = 1000 := by
  have h := attempt_reconnect_wait_interval
    (aws_iot_mqtt_init AWS_IoT_Client.uninitialized
      ⟨some "test.example.com", 8883, none, none, none, 20000, 5000, true, true⟩).2
    (List.replicate 10 IoT_Error_t.NETWORK_TCP_SOCKET_ERROR) 11
    (by decide) (by decide) (by decide) (by decide)
  exact ⟨h.1.trans (by decide), h.2.trans (by decide)⟩

end AwsIot
